import Mathlib

/-!
Verification development for the exolgan-reporter repository.

The repository is a single-run reporting pipeline: it resolves a date range
(previous calendar month or explicit bounds), fetches rows over a stateful
SQL connection, renders a spreadsheet and either mails it or saves it
locally.  The development below is a shallow embedding of the core code:

* `Date`, `parseYMD`, `get_date_range_*` embed `reporter.get_date_range`
  (src/reporter.py lines 84-118);
* `SQLConnection` and its operations embed
  src/modules/database/sql_connection.py, with the database driver
  abstracted as a `DriverEnv` (outcomes of `pyodbc.connect`, the health
  check and `cursor.execute`) and all driver-level side effects recorded
  as an explicit event trace `List Ev`;
* `fetch_data` and `main_run` embed the pipeline orchestration in
  src/reporter.py (lines 121-234).
-/

/-! ### Calendar dates (embedding of `datetime.date`) -/

/-- A calendar date, the shape of Python's `datetime.date`. -/
structure Date where
  year : Nat
  month : Nat
  day : Nat
deriving DecidableEq, Repr

/-- Gregorian leap-year rule used by `datetime.date`. -/
def isLeapYear (y : Nat) : Bool :=
  y % 4 == 0 && (y % 100 != 0 || y % 400 == 0)

/-- Number of days in a month, as validated by the `datetime.date` constructor. -/
def daysInMonth (y m : Nat) : Nat :=
  if m == 2 then (if isLeapYear y then 29 else 28)
  else if m == 4 || m == 6 || m == 9 || m == 11 then 30
  else 31

/-- The validity condition the `datetime.date` constructor enforces
(`MINYEAR = 1`, month 1..12, day within the month). -/
def validDate (d : Date) : Bool :=
  1 ≤ d.year && 1 ≤ d.month && d.month ≤ 12 && 1 ≤ d.day && d.day ≤ daysInMonth d.year d.month

/-- Python date comparison `a < b`: lexicographic on (year, month, day). -/
def dateLt (a b : Date) : Bool :=
  a.year < b.year ||
  (a.year == b.year && (a.month < b.month ||
    (a.month == b.month && a.day < b.day)))

/-- Split a character list at every `'-'` (the field separators of the
`"%Y-%m-%d"` format). -/
def splitOnDash : List Char → List (List Char)
  | [] => [[]]
  | c :: rest =>
    let r := splitOnDash rest
    if c = '-' then [] :: r
    else
      match r with
      | [] => [[c]]
      | f :: rs => (c :: f) :: rs

/-- Numeric value of a digit string. -/
def digitsToNat (cs : List Char) : Nat :=
  cs.foldl (fun a c => a * 10 + (c.toNat - 48)) 0

/-- Embedding of `datetime.datetime.strptime(s, "%Y-%m-%d").date()`: the year is exactly
four digits, month and day are one or two digits, and the resulting triple
must be a valid calendar date; any other input raises `ValueError`
(modelled as `none`). -/
def parseYMD (s : String) : Option Date :=
  match splitOnDash s.toList with
  | [ys, ms, ds] =>
    if ys.length == 4 && ys.all Char.isDigit &&
       1 ≤ ms.length && ms.length ≤ 2 && ms.all Char.isDigit &&
       1 ≤ ds.length && ds.length ≤ 2 && ds.all Char.isDigit then
      let y := digitsToNat ys
      let m := digitsToNat ms
      let d := digitsToNat ds
      if validDate ⟨y, m, d⟩ then some ⟨y, m, d⟩ else none
    else none
  | _ => none

/-- Embedding of `datetime.timedelta(days=1)` subtraction on a valid date
(used by `get_date_range` on the first day of the current month). -/
def subOneDay (d : Date) : Date :=
  if 1 < d.day then ⟨d.year, d.month, d.day - 1⟩
  else if 1 < d.month then ⟨d.year, d.month - 1, daysInMonth d.year (d.month - 1)⟩
  else ⟨d.year - 1, 12, 31⟩

/-! ### Date range resolver (`reporter.get_date_range`) -/

/-- The `-last_month` branch of `get_date_range` (src/reporter.py
lines 97-106), with `datetime.date.today()` passed in as `today`:
first day of the current month, minus one day, then the first day of
that day's month. -/
def get_date_range_last_month (today : Date) : Date × Date :=
  let first_day_current : Date := ⟨today.year, today.month, 1⟩
  let last_day_previous : Date := subOneDay first_day_current
  let first_day_previous : Date := ⟨last_day_previous.year, last_day_previous.month, 1⟩
  (first_day_previous, last_day_previous)

/-- The explicit-range branch of `get_date_range` (src/reporter.py
lines 107-118): parse both strings with `strptime "%Y-%m-%d"`, raise
`ValueError` if either fails or if start is strictly after end. -/
def get_date_range_between (startArg endArg : String) : Except String (Date × Date) :=
  match parseYMD startArg with
  | none => .error "Invalid date format: time data does not match format"
  | some start_date =>
    match parseYMD endArg with
    | none => .error "Invalid date format: time data does not match format"
    | some end_date =>
      if dateLt end_date start_date then
        .error "Invalid date format: Start date cannot be after end date"
      else
        .ok (start_date, end_date)

/-- The command-line intent reaching `get_date_range`: either the
`-last_month` flag (with the current date observed at run time) or an
explicit `-between`/`-and` pair of raw strings. -/
inductive Args where
  | last_month (today : Date)
  | between (startArg endArg : String)

/-- Embedding of `reporter.get_date_range` (src/reporter.py lines 84-118). -/
def get_date_range (a : Args) : Except String (Date × Date) :=
  match a with
  | .last_month today => .ok (get_date_range_last_month today)
  | .between s e => get_date_range_between s e

/-- Decidable `start <= end` on dates (negation of `dateLt end start`). -/
def dateLe (a b : Date) : Bool := !dateLt b a

/-! ### Connection manager (embedding of `SQLConnection`, sql_connection.py)

The pyodbc driver is abstracted as a `DriverEnv` giving the outcomes of the
driver calls; every driver-level side effect the claims talk about is
recorded in an event trace. -/

/-- Driver-level events emitted by the connection manager. -/
inductive Ev where
  /-- The `connect()` method was entered. -/
  | connectCall
  /-- Call of `pyodbc.connect(...)`, with its outcome. -/
  | drvConnect (ok : Bool)
  /-- Call of `cursor.execute(script)` (`withParams` = positional parameters were bound). -/
  | execStmt (withParams : Bool)
  /-- Call of `conn.commit()`. -/
  | commit
  /-- Call of `conn.rollback()`. -/
  | rollback
  /-- Call of `cursor.close()`. -/
  | closeCursor
  /-- Call of `conn.close()`. -/
  | closeConn
deriving DecidableEq, Repr

/-- Outcome of `cursor.execute(script)` at the driver: either success with a
column description (`none` for non-result statements), the fetched rows and
the affected-row count, or a raised driver error. -/
inductive StmtResult where
  | ok (description : Option (List String)) (resultRows : List (List String)) (rowcount : Int)
  | err (msg : String)
deriving DecidableEq, Repr

/-- Abstraction of the pyodbc driver for one run: whether `pyodbc.connect`
succeeds, whether the `SELECT 1` health check succeeds on a live cursor,
and what executing the caller's statement does. -/
structure DriverEnv where
  connectOk : Bool
  healthOk : Bool
  stmt : StmtResult
deriving DecidableEq, Repr

/-- The state of a `SQLConnection` object (sql_connection.py lines 10-33):
its constructor arguments plus the `conn`/`cursor` fields, each modelled as
a flag for "is not `None`". -/
structure SQLConnection where
  server : String
  database : String
  username : Option String
  password : Option String
  trusted_connection : Bool
  driver : String
  conn : Bool
  cursor : Bool
deriving DecidableEq, Repr

/-- Python truthiness of `self.username` / `self.password`: `None` and the
empty string are falsy. -/
def pyFalsy (o : Option String) : Bool :=
  match o with
  | none => true
  | some s => s.isEmpty

/-- Python truthiness of the `params` argument of `exec`: `None` and an
empty sequence are falsy. -/
def pyTruthy (p : Option (List String)) : Bool :=
  match p with
  | none => false
  | some l => !l.isEmpty

/-- Embedding of `SQLConnection.connect` (sql_connection.py lines 35-60).  Builds the
connection string; when trusted mode is off and either credential is falsy
it raises `ValueError`, which the method's own `except` catches, logs and
turns into `False` before any driver call.  Otherwise `pyodbc.connect` is
attempted; on success `conn` and `cursor` are set and `True` returned, on a
driver exception the fields are left unchanged and `False` returned.  The
method never lets an exception escape. -/
def SQLConnection.connect (env : DriverEnv) (s : SQLConnection) :
    Bool × SQLConnection × List Ev :=
  if !s.trusted_connection && (pyFalsy s.username || pyFalsy s.password) then
    (false, s, [Ev.connectCall])
  else if env.connectOk then
    (true, { s with conn := true, cursor := true }, [Ev.connectCall, Ev.drvConnect true])
  else
    (false, s, [Ev.connectCall, Ev.drvConnect false])

/-- Embedding of `SQLConnection.is_connected` (lines 62-77): `False` when `conn` is
`None`; otherwise `cursor.execute("SELECT 1")` — an absent cursor or any
driver exception is caught and read as "not connected". -/
def SQLConnection.is_connected (env : DriverEnv) (s : SQLConnection) : Bool :=
  if !s.conn then false
  else s.cursor && env.healthOk

/-- Embedding of `SQLConnection.reconnect_if_needed` (lines 79-89): short-circuit `True`
when the health check passes, otherwise delegate to `connect`. -/
def SQLConnection.reconnect_if_needed (env : DriverEnv) (s : SQLConnection) :
    Bool × SQLConnection × List Ev :=
  if SQLConnection.is_connected env s then (true, s, [])
  else SQLConnection.connect env s

/-- Keys of a Python dict modelled as an insertion-ordered association list. -/
def dictKeys (d : List (String × String)) : List String := d.map Prod.fst

/-- One assignment `d[k] = v` of a Python dict: overwrite in place when the
key exists, append otherwise. -/
def pyDictInsert (d : List (String × String)) (k v : String) : List (String × String) :=
  if (dictKeys d).contains k then
    d.map (fun p => if p.1 == k then (k, v) else p)
  else d ++ [(k, v)]

/-- The dict comprehension of sql_connection.py line 127,
`\x7bcolumns[i]: value for i, value in enumerate(row)\x7d`, iterated from
index `i` with accumulator `d`.  `columns.getD i ""` is only consulted at
in-range indices; `exec` diverts to the count fallback beforehand when a row
is longer than `columns` (the comprehension would raise `IndexError`). -/
def buildRowDict (columns : List String) (i : Nat) (d : List (String × String)) :
    List String → List (String × String)
  | [] => d
  | v :: rest => buildRowDict columns (i + 1) (pyDictInsert d (columns.getD i "") v) rest

/-- Row materialization: the dict built for one fetched row. -/
def rowToDict (columns : List String) (row : List String) : List (String × String) :=
  buildRowDict columns 0 [] row

/-- The value `exec` produces: the dual-mode `ResultSet` (rows or count) or
one of its two raising paths. -/
inductive ExecOutcome where
  /-- A list of row dicts was returned (statement had a column description). -/
  | rows (rs : List (List (String × String)))
  /-- The affected-row count was returned (no column description). -/
  | count (n : Int)
  /-- A `ConnectionError` was raised: `reconnect_if_needed` failed. -/
  | connError (msg : String)
  /-- The execution error was re-raised after rollback. -/
  | raised (msg : String)
deriving DecidableEq, Repr

/-- Embedding of `SQLConnection.exec` (sql_connection.py lines 91-140).  Ensures liveness
via `reconnect_if_needed` (raising `ConnectionError` on failure); executes
the statement with positional parameters only when `params` is truthy; then
tries to read `cursor.description` — present: materialize every fetched row
into a dict, commit, return the rows; absent (iterating `None` raises) or
any failure inside that block (e.g. `IndexError` from an over-long row):
read `cursor.rowcount`, commit, return the count.  When the execution
itself raises, roll back and re-raise. -/
def SQLConnection.exec (env : DriverEnv) (s : SQLConnection) (script : String)
    (params : Option (List String)) : ExecOutcome × SQLConnection × List Ev :=
  if !(SQLConnection.reconnect_if_needed env s).1 then
    (.connError "Failed to connect to database",
     (SQLConnection.reconnect_if_needed env s).2.1,
     (SQLConnection.reconnect_if_needed env s).2.2)
  else
    match env.stmt with
    | .err m =>
      (.raised m, (SQLConnection.reconnect_if_needed env s).2.1,
       (SQLConnection.reconnect_if_needed env s).2.2 ++
         [Ev.execStmt (pyTruthy params), Ev.rollback])
    | .ok descr resultRows rowcount =>
      match descr with
      | none =>
        (.count rowcount, (SQLConnection.reconnect_if_needed env s).2.1,
         (SQLConnection.reconnect_if_needed env s).2.2 ++
           [Ev.execStmt (pyTruthy params), Ev.commit])
      | some columns =>
        if resultRows.any (fun r => columns.length < r.length) then
          (.count rowcount, (SQLConnection.reconnect_if_needed env s).2.1,
           (SQLConnection.reconnect_if_needed env s).2.2 ++
             [Ev.execStmt (pyTruthy params), Ev.commit])
        else
          (.rows (resultRows.map (rowToDict columns)),
           (SQLConnection.reconnect_if_needed env s).2.1,
           (SQLConnection.reconnect_if_needed env s).2.2 ++
             [Ev.execStmt (pyTruthy params), Ev.commit])

/-- Embedding of `SQLConnection.close` (sql_connection.py lines 142-153): close cursor
and connection when present, then null both fields. -/
def SQLConnection.close (s : SQLConnection) : SQLConnection × List Ev :=
  ({ s with conn := false, cursor := false },
   (if s.cursor then [Ev.closeCursor] else []) ++ (if s.conn then [Ev.closeConn] else []))

/-- The default value of the constructor's `driver` argument. -/
def defaultDriver : String := "ODBC Driver 17 for SQL Server"

/-- Embedding of `SQLConnection.__init__` (sql_connection.py lines 10-33): store the
arguments, set `conn`/`cursor` to `None`, then auto-connect (the return
value of `connect` is discarded by the constructor). -/
def SQLConnection.init (env : DriverEnv) (server database : String)
    (username password : Option String) (trusted_connection : Bool)
    (driver : String) : SQLConnection × List Ev :=
  let s0 : SQLConnection :=
    { server := server, database := database, username := username, password := password,
      trusted_connection := trusted_connection, driver := driver, conn := false, cursor := false }
  let c := SQLConnection.connect env s0
  (c.2.1, c.2.2)

/-! ### Report pipeline (embedding of `reporter.py`) -/

/-- The query template of src/modules/database/queries.py, bound to the two
date parameters. -/
def get_ops_between_dates : String :=
  "SELECT o.ID AS [id], o.oper_date AS [date], u.emp_id AS [emp_id], " ++
  "u.first_name AS [name], u.last_name AS [lastname], t.name AS [terminal], " ++
  "o.credit_block AS [block] FROM ven_operations o " ++
  "INNER JOIN ven_users u ON o.user_id = u.ID " ++
  "INNER JOIN ven_terminals t ON o.terminal_id = t.ID " ++
  "WHERE o.oper_date BETWEEN ? AND ? ORDER BY o.oper_date DESC;"

/-- The `connection_data` sub-mapping of the `db` configuration section, as
accessed by `fetch_data`. -/
structure DBConfig where
  host : String
  database : String
  user : Option String
  password : Option String
deriving DecidableEq, Repr

/-- Zero-padded decimal rendering used by `strftime`. -/
def padNat (width n : Nat) : String :=
  let s := toString n
  String.mk (List.replicate (width - s.length) '0') ++ s

/-- Python `date.strftime("%Y%m%d")`. -/
def strftimeYmd (d : Date) : String :=
  padNat 4 d.year ++ padNat 2 d.month ++ padNat 2 d.day

/-- Python `str(date)` / `strftime("%Y-%m-%d")`, the textual form a date
parameter takes when handed to the driver. -/
def strftimeIso (d : Date) : String :=
  padNat 4 d.year ++ "-" ++ padNat 2 d.month ++ "-" ++ padNat 2 d.day

/-- Embedding of `reporter.fetch_data` (src/reporter.py lines 121-158):
construct a `SQLConnection` (which auto-connects), call `exec` with the
catalog query and the positional `(start_date, end_date)` pair, close the
connection and return the results.  There is no `finally`: when `exec`
raises (`ConnectionError` or any execution error) the function logs and
re-raises without reaching the `connection.close()` line, so the returned
trace carries no close events on those paths. -/
def fetch_data (env : DriverEnv) (cfg : DBConfig) (start_date end_date : Date) :
    ExecOutcome × List Ev :=
  match SQLConnection.exec env
      (SQLConnection.init env cfg.host cfg.database cfg.user cfg.password false defaultDriver).1
      get_ops_between_dates (some [strftimeIso start_date, strftimeIso end_date]) with
  | (.connError m, _, t2) =>
    (.connError m,
     (SQLConnection.init env cfg.host cfg.database cfg.user cfg.password false defaultDriver).2 ++ t2)
  | (.raised m, _, t2) =>
    (.raised m,
     (SQLConnection.init env cfg.host cfg.database cfg.user cfg.password false defaultDriver).2 ++ t2)
  | (out, s2, t2) =>
    (out,
     (SQLConnection.init env cfg.host cfg.database cfg.user cfg.password false defaultDriver).2 ++ t2 ++
       (SQLConnection.close s2).2)

/-- The `mail` configuration section.  `main` checks the six required keys
for presence; a missing key is an `Option.none` field here. -/
structure MailConfig where
  api_url : Option String
  api_key : Option String
  from_email : Option String
  from_name : Option String
  subject : Option String
  recipients : Option (List String)
deriving DecidableEq, Repr

/-- The completeness test of src/reporter.py line 203: `"mail" in config and
all(key in config["mail"] for key in [...])`. -/
def mailComplete (mail : Option MailConfig) : Bool :=
  match mail with
  | none => false
  | some m =>
    m.api_url.isSome && m.api_key.isSome && m.from_email.isSome &&
    m.from_name.isSome && m.subject.isSome && m.recipients.isSome

/-- The loaded configuration as consumed by `main`: a `db` section and an
optional `mail` section. -/
structure Config where
  db : DBConfig
  mail : Option MailConfig
deriving DecidableEq, Repr

/-- The observable outcome of one `main` run: the exit code returned to
`sys.exit`, the user-facing message printed on the final branch taken, and
the local file written, if any. -/
structure RunResult where
  exitCode : Int
  message : String
  savedFile : Option String
deriving DecidableEq, Repr

/-- Embedding of `reporter.main` (src/reporter.py lines 161-234) from the
point where configuration is loaded, with the external collaborators
abstracted: `a` is the parsed CLI intent, `env` the database driver
behaviour and `emailOk` the boolean returned by
`send_email_with_attachment` (which never raises).  A `ValueError` from
`get_date_range`, a fetch exception, or any later exception is caught by
the top-level handler, printing `Error: ...` and returning 1.  An empty
result set returns 0 with a "No data" message; otherwise the report is
rendered and either mailed (printing a success or a
generated-but-not-delivered message, both with exit 0 and no local file)
or, when the mail configuration is incomplete, written locally as
`Report_<start>_to_<end>.xlsx` with exit 0.  An integer result (count
mode) flows into `if not data`: 0 is falsy ("No data"), a non-zero count
reaches the renderer, whose `data[0].keys()` raises `TypeError`, caught at
the top level with exit 1. -/
def main_run (a : Args) (env : DriverEnv) (cfg : Config) (emailOk : Bool) : RunResult :=
  match get_date_range a with
  | .error m => { exitCode := 1, message := "Error: " ++ m, savedFile := none }
  | .ok (start_date, end_date) =>
    match (fetch_data env cfg.db start_date end_date).1 with
    | .connError m => { exitCode := 1, message := "Error: " ++ m, savedFile := none }
    | .raised m => { exitCode := 1, message := "Error: " ++ m, savedFile := none }
    | .count n =>
      if n == 0 then
        { exitCode := 0, message := "No data found for the specified period", savedFile := none }
      else
        { exitCode := 1, message := "Error: object of type int has no keys", savedFile := none }
    | .rows data =>
      if data.isEmpty then
        { exitCode := 0, message := "No data found for the specified period", savedFile := none }
      else
        if mailComplete cfg.mail then
          if emailOk then
            { exitCode := 0, message := "Report generated and sent via email successfully",
              savedFile := none }
          else
            { exitCode := 0, message := "Report generated but email sending failed",
              savedFile := none }
        else
          let report_filename :=
            "Report_" ++ strftimeYmd start_date ++ "_to_" ++ strftimeYmd end_date ++ ".xlsx"
          { exitCode := 0,
            message := "Report generated and saved as " ++ report_filename ++
              " (Email configuration incomplete)",
            savedFile := some report_filename }

/-! ### Helper lemmas about the connection state machine -/

/-- A successful `connect` leaves both `conn` and `cursor` live. -/
lemma connect_true_state (env : DriverEnv) (s : SQLConnection)
    (h : (SQLConnection.connect env s).1 = true) :
    (SQLConnection.connect env s).2.1.conn = true ∧
    (SQLConnection.connect env s).2.1.cursor = true := by
  unfold SQLConnection.connect at *
  split_ifs at h ⊢ <;> simp_all

/-- A live health check means both `conn` and `cursor` are set. -/
lemma is_connected_state (env : DriverEnv) (s : SQLConnection)
    (h : SQLConnection.is_connected env s = true) :
    s.conn = true ∧ s.cursor = true := by
  unfold SQLConnection.is_connected at h
  split at h <;> simp_all

/-- A successful `reconnect_if_needed` leaves both `conn` and `cursor` live. -/
lemma reconnect_true_state (env : DriverEnv) (s : SQLConnection)
    (h : (SQLConnection.reconnect_if_needed env s).1 = true) :
    (SQLConnection.reconnect_if_needed env s).2.1.conn = true ∧
    (SQLConnection.reconnect_if_needed env s).2.1.cursor = true := by
  by_cases hic : SQLConnection.is_connected env s = true
  · rw [SQLConnection.reconnect_if_needed, if_pos hic]
    exact is_connected_state env s hic
  · rw [SQLConnection.reconnect_if_needed, if_neg hic] at h ⊢
    exact connect_true_state env s h

/-- The `connect` trace holds only method-entry and driver-connect events. -/
lemma ev_mem_connect (env : DriverEnv) (s : SQLConnection) (e : Ev)
    (h : e ∈ (SQLConnection.connect env s).2.2) :
    e = Ev.connectCall ∨ ∃ b, e = Ev.drvConnect b := by
  unfold SQLConnection.connect at h
  split_ifs at h <;> simp_all <;> tauto

/-- The `reconnect_if_needed` trace holds only method-entry and
driver-connect events. -/
lemma ev_mem_reconnect (env : DriverEnv) (s : SQLConnection) (e : Ev)
    (h : e ∈ (SQLConnection.reconnect_if_needed env s).2.2) :
    e = Ev.connectCall ∨ ∃ b, e = Ev.drvConnect b := by
  by_cases hic : SQLConnection.is_connected env s = true
  · rw [SQLConnection.reconnect_if_needed, if_pos hic] at h
    simp at h
  · rw [SQLConnection.reconnect_if_needed, if_neg hic] at h
    exact ev_mem_connect env s e h

/-- The `exec` trace is the reconnect trace, possibly extended by the
statement execution followed by a commit or a rollback. -/
lemma exec_trace_shape (env : DriverEnv) (s : SQLConnection) (script : String)
    (params : Option (List String)) :
    (SQLConnection.exec env s script params).2.2 =
      (SQLConnection.reconnect_if_needed env s).2.2 ∨
    (SQLConnection.exec env s script params).2.2 =
      (SQLConnection.reconnect_if_needed env s).2.2 ++
        [Ev.execStmt (pyTruthy params), Ev.commit] ∨
    (SQLConnection.exec env s script params).2.2 =
      (SQLConnection.reconnect_if_needed env s).2.2 ++
        [Ev.execStmt (pyTruthy params), Ev.rollback] := by
  rw [SQLConnection.exec]
  split
  · exact Or.inl rfl
  · split
    · exact Or.inr (Or.inr rfl)
    · split
      · exact Or.inr (Or.inl rfl)
      · split
        · exact Or.inr (Or.inl rfl)
        · exact Or.inr (Or.inl rfl)

/-- The `exec` trace never holds a close event. -/
lemma ev_mem_exec (env : DriverEnv) (s : SQLConnection) (script : String)
    (params : Option (List String)) (e : Ev)
    (h : e ∈ (SQLConnection.exec env s script params).2.2) :
    e = Ev.connectCall ∨ (∃ b, e = Ev.drvConnect b) ∨
    (∃ b, e = Ev.execStmt b) ∨ e = Ev.commit ∨ e = Ev.rollback := by
  rcases exec_trace_shape env s script params with ht | ht | ht <;> rw [ht] at h
  · exact (ev_mem_reconnect env s e h).imp id Or.inl
  · rcases List.mem_append.mp h with h | h
    · exact (ev_mem_reconnect env s e h).imp id Or.inl
    · simp only [List.mem_cons, List.not_mem_nil, or_false] at h
      rcases h with h | h
      · exact Or.inr (Or.inr (Or.inl ⟨_, h⟩))
      · exact Or.inr (Or.inr (Or.inr (Or.inl h)))
  · rcases List.mem_append.mp h with h | h
    · exact (ev_mem_reconnect env s e h).imp id Or.inl
    · simp only [List.mem_cons, List.not_mem_nil, or_false] at h
      rcases h with h | h
      · exact Or.inr (Or.inr (Or.inl ⟨_, h⟩))
      · exact Or.inr (Or.inr (Or.inr (Or.inr h)))

/-- The constructor trace holds only method-entry and driver-connect events. -/
lemma ev_mem_init (env : DriverEnv) (server database : String)
    (u p : Option String) (tr : Bool) (e : Ev)
    (h : e ∈ (SQLConnection.init env server database u p tr defaultDriver).2) :
    e = Ev.connectCall ∨ ∃ b, e = Ev.drvConnect b := by
  unfold SQLConnection.init at h
  exact ev_mem_connect env _ e h

/-- The second component of an `exec` result is always the state left by
`reconnect_if_needed` (also on the raising paths). -/
lemma exec_state (env : DriverEnv) (s : SQLConnection) (script : String)
    (params : Option (List String)) :
    (SQLConnection.exec env s script params).2.1 =
      (SQLConnection.reconnect_if_needed env s).2.1 := by
  rw [SQLConnection.exec]
  split
  · rfl
  · split
    · rfl
    · split
      · rfl
      · split <;> rfl

/-- Inserting a fresh key into a Python dict appends it. -/
lemma pyDictInsert_not_mem (d : List (String × String)) (k v : String)
    (h : k ∉ dictKeys d) : pyDictInsert d k v = d ++ [(k, v)] := by
  unfold pyDictInsert
  rw [if_neg (by simpa using h)]

/-- Invariant of the dict comprehension: starting at index `i` with an
accumulator whose keys are the first `i` column names, pairing the
remaining row values with the remaining (distinct) column names appends
them in order. -/
lemma buildRowDict_drop (columns : List String) (hnd : columns.Nodup) :
    ∀ (row : List String) (i : Nat) (d : List (String × String)),
      i + row.length ≤ columns.length →
      dictKeys d = columns.take i →
      buildRowDict columns i d row = d ++ (columns.drop i).zip row := by
  intro row
  induction row with
  | nil =>
    intro i d _ _
    simp [buildRowDict]
  | cons v rest ih =>
    intro i d hlen hkeys
    have hi : i < columns.length := by
      simp only [List.length_cons] at hlen; omega
    have hgetD : columns.getD i "" = columns[i] := List.getD_eq_getElem columns "" hi
    have hdropeq : columns.drop i = columns[i] :: columns.drop (i + 1) :=
      List.drop_eq_getElem_cons hi
    have hnotin : columns[i] ∉ columns.take i := by
      intro hin
      have hsplit : columns.take i ++ columns.drop i = columns := List.take_append_drop i columns
      have hnd2 : (columns.take i ++ columns.drop i).Nodup := by rw [hsplit]; exact hnd
      have hdisj := (List.nodup_append.mp hnd2).2.2
      have hmem : columns[i] ∈ columns.drop i := by
        rw [hdropeq]; exact List.mem_cons_self _ _
      exact hdisj hin hmem
    rw [buildRowDict, hgetD, pyDictInsert_not_mem d columns[i] v (hkeys ▸ hnotin)]
    rw [ih (i + 1) (d ++ [(columns[i], v)])
        (by simp only [List.length_cons] at hlen; omega)
        (by
          simp only [dictKeys, List.map_append, List.map_cons, List.map_nil]
          rw [show (List.map Prod.fst d) = dictKeys d from rfl, hkeys]
          rw [List.take_succ, List.getElem?_eq_getElem hi]
          rfl)]
    rw [hdropeq, List.zip_cons_cons, List.append_assoc]
    rfl

/-- With distinct column names and a row no longer than the column list,
the materialized dict is exactly the column/value pairing in column order. -/
lemma rowToDict_zip (columns row : List String) (hnd : columns.Nodup)
    (hlen : row.length ≤ columns.length) :
    rowToDict columns row = columns.zip row := by
  have := buildRowDict_drop columns hnd row 0 [] (by omega) (by simp [dictKeys])
  simpa [rowToDict] using this

/-- When `exec` returns normally (rows or count), the reconnect step
succeeded. -/
lemma exec_normal_reconnect (env : DriverEnv) (s : SQLConnection) (script : String)
    (params : Option (List String))
    (h : (∃ rs, (SQLConnection.exec env s script params).1 = .rows rs) ∨
         (∃ n, (SQLConnection.exec env s script params).1 = .count n)) :
    (SQLConnection.reconnect_if_needed env s).1 = true := by
  rw [SQLConnection.exec] at h
  split at h
  next hb => rcases h with ⟨_, h⟩ | ⟨_, h⟩ <;> simp_all
  next hb => simpa using hb

/-! ### Claims -/

/-- C6: In explicit-range mode, for every pair of date strings that parse
as YYYY-MM-DD dates with start on or before end, the resolver returns
exactly that parsed pair unchanged; when either string fails to parse, or
the parsed start is strictly after the parsed end, it fails with a
validation error. -/
theorem c6_explicit_range_resolver (s e : String) :
    (∀ sd ed, parseYMD s = some sd → parseYMD e = some ed →
      dateLe sd ed = true → get_date_range_between s e = Except.ok (sd, ed)) ∧
    (∀ sd ed, parseYMD s = some sd → parseYMD e = some ed →
      dateLe sd ed = false → (get_date_range_between s e).isOk = false) ∧
    ((parseYMD s = none ∨ parseYMD e = none) →
      (get_date_range_between s e).isOk = false) := by
  refine ⟨?_, ?_, ?_⟩
  · intro sd ed hs he hle
    have hlt : dateLt ed sd = false := by
      unfold dateLe at hle; simpa using hle
    simp [get_date_range_between, hs, he, hlt]
  · intro sd ed hs he hle
    have hlt : dateLt ed sd = true := by
      unfold dateLe at hle; simpa using hle
    simp [get_date_range_between, hs, he, hlt, Except.isOk, Except.toBool]
  · intro h
    rcases h with h | h
    · simp [get_date_range_between, h, Except.isOk, Except.toBool]
    · rcases hps : parseYMD s with _ | sd <;>
        simp [get_date_range_between, hps, h, Except.isOk, Except.toBool]

/-- Witness for C6 at a concrete in-order pair. -/
theorem c6_explicit_range_resolver_witness :
    get_date_range_between "2024-01-02" "2024-03-04" =
      Except.ok (⟨2024, 1, 2⟩, ⟨2024, 3, 4⟩) :=
  (c6_explicit_range_resolver "2024-01-02" "2024-03-04").1 ⟨2024, 1, 2⟩ ⟨2024, 3, 4⟩
    (by decide) (by decide) (by decide)

/-- C7: In previous-month mode, for every valid reference date the resolver
returns the first and last day of the calendar month immediately before
the reference month, rolling the year back when the reference month is
January and using the correct length of the target month. -/
theorem c7_previous_month_resolver (today : Date) (h : validDate today = true) :
    get_date_range_last_month today =
      (if today.month = 1 then
        (⟨today.year - 1, 12, 1⟩, ⟨today.year - 1, 12, 31⟩)
      else
        (⟨today.year, today.month - 1, 1⟩,
         ⟨today.year, today.month - 1, daysInMonth today.year (today.month - 1)⟩)) := by
  obtain ⟨y, m, d⟩ := today
  simp only [validDate, Bool.and_eq_true, decide_eq_true_eq] at h
  by_cases hm : m = 1
  · subst hm
    simp [get_date_range_last_month, subOneDay]
  · have h1m : 1 < m := by omega
    simp [get_date_range_last_month, subOneDay, h1m, hm]

/-- Witness for C7 at the year-rollover reference date 2025-01-15. -/
theorem c7_previous_month_resolver_witness :
    validDate ⟨2025, 1, 15⟩ = true ∧
    get_date_range_last_month ⟨2025, 1, 15⟩ = (⟨2024, 12, 1⟩, ⟨2024, 12, 31⟩) := by
  refine ⟨by decide, ?_⟩
  have := c7_previous_month_resolver ⟨2025, 1, 15⟩ (by decide)
  simpa using this

/-- C9: On a live session (conn and cursor set, health check passing),
`reconnect_if_needed` returns true, leaves the state untouched and emits no
events — in particular `connect()` is not entered — and a second
back-to-back call behaves the same. -/
theorem c9_reconnect_idempotent_on_live (env : DriverEnv) (s : SQLConnection)
    (hconn : s.conn = true) (hcur : s.cursor = true) (hh : env.healthOk = true) :
    SQLConnection.reconnect_if_needed env s = (true, s, []) ∧
    SQLConnection.reconnect_if_needed env
        (SQLConnection.reconnect_if_needed env s).2.1 = (true, s, []) ∧
    Ev.connectCall ∉ (SQLConnection.reconnect_if_needed env s).2.2 ∧
    Ev.connectCall ∉
      (SQLConnection.reconnect_if_needed env
        (SQLConnection.reconnect_if_needed env s).2.1).2.2 := by
  have hic : SQLConnection.is_connected env s = true := by
    simp [SQLConnection.is_connected, hconn, hcur, hh]
  have h1 : SQLConnection.reconnect_if_needed env s = (true, s, []) := by
    rw [SQLConnection.reconnect_if_needed, if_pos hic]
  refine ⟨h1, ?_, ?_, ?_⟩
  · rw [h1]; exact h1
  · rw [h1]; simp
  · rw [h1]; rw [show ((true, s, ([] : List Ev)) : Bool × SQLConnection × List Ev).2.1 = s
        from rfl, h1]
    simp

/-- Witness for C9 on a concrete live connection. -/
theorem c9_reconnect_idempotent_on_live_witness :
    SQLConnection.reconnect_if_needed ⟨true, true, .ok (some ["a"]) [] 0⟩
      ⟨"h", "d", some "u", some "p", false, "drv", true, true⟩ =
      (true, ⟨"h", "d", some "u", some "p", false, "drv", true, true⟩, []) :=
  (c9_reconnect_idempotent_on_live ⟨true, true, .ok (some ["a"]) [] 0⟩
    ⟨"h", "d", some "u", some "p", false, "drv", true, true⟩ rfl rfl rfl).1

/-- C10: Calling `exec` with an empty parameter sequence is
indistinguishable from calling it with no parameters at all, because the
source tests the truthiness of `params` (`if params:`) rather than its
presence: the result value, the final state and the emitted trace all
coincide. -/
theorem c10_exec_empty_params_eq_none (env : DriverEnv) (s : SQLConnection)
    (script : String) :
    SQLConnection.exec env s script (some []) = SQLConnection.exec env s script none := rfl

/-- C8: `connect` never raises past its boundary: its outcome is always the
boolean determined by the configuration and the driver (trusted mode, or
both credentials truthy, and the driver call succeeding); in particular,
with trusted mode off and a falsy username or password it returns false
without any driver-level connection attempt and without touching the
state. -/
theorem c8_connect_returns_bool_fails_fast (env : DriverEnv) (s : SQLConnection) :
    ((SQLConnection.connect env s).1 =
      ((s.trusted_connection || (!pyFalsy s.username && !pyFalsy s.password)) &&
        env.connectOk)) ∧
    (s.trusted_connection = false →
      (pyFalsy s.username || pyFalsy s.password) = true →
      (SQLConnection.connect env s).1 = false ∧
      (∀ b, Ev.drvConnect b ∉ (SQLConnection.connect env s).2.2) ∧
      (SQLConnection.connect env s).2.1 = s) := by
  constructor
  · obtain ⟨sv, db, u, p, tr, dr, cn, cr⟩ := s
    obtain ⟨co, ho, stmt⟩ := env
    cases tr <;> cases co <;>
      cases hu : pyFalsy u <;> cases hp : pyFalsy p <;>
      simp [SQLConnection.connect, hu, hp]
  · intro htr hcred
    rw [SQLConnection.connect, if_pos (by simp [htr, hcred])]
    exact ⟨rfl, by intro b; simp, rfl⟩

/-- Witness for C8 with trusted mode off and no username. -/
theorem c8_connect_returns_bool_fails_fast_witness :
    (SQLConnection.connect ⟨true, true, .ok none [] 0⟩
      ⟨"h", "d", none, some "p", false, "drv", false, false⟩).1 = false ∧
    (∀ b, Ev.drvConnect b ∉ (SQLConnection.connect ⟨true, true, .ok none [] 0⟩
      ⟨"h", "d", none, some "p", false, "drv", false, false⟩).2.2) ∧
    (SQLConnection.connect ⟨true, true, .ok none [] 0⟩
      ⟨"h", "d", none, some "p", false, "drv", false, false⟩).2.1 =
      ⟨"h", "d", none, some "p", false, "drv", false, false⟩ :=
  (c8_connect_returns_bool_fails_fast ⟨true, true, .ok none [] 0⟩
    ⟨"h", "d", none, some "p", false, "drv", false, false⟩).2 rfl rfl

/-- C4 counterexample: constructing the manager itself opens a database
session.  With usable credentials and a willing driver, immediately after
`__init__` the connection handle is live and a driver-level connect was
attempted during construction — creation is not lazy. -/
theorem c4_lazy_creation_counterexample :
    (SQLConnection.init ⟨true, true, .ok none [] 0⟩ "srv" "db"
      (some "u") (some "p") false defaultDriver).1.conn = true ∧
    Ev.drvConnect true ∈ (SQLConnection.init ⟨true, true, .ok none [] 0⟩ "srv" "db"
      (some "u") (some "p") false defaultDriver).2 := by decide

/-- C4 amended: the constructor connects eagerly (auto-connect): every
construction enters `connect()`, and the freshly constructed object's
session is live exactly when that connect succeeded (trusted mode or
truthy credentials, and a willing driver); a session is (re)established
on demand later only through `exec`'s `reconnect_if_needed`. -/
theorem c4_constructor_auto_connects (env : DriverEnv) (server database : String)
    (u p : Option String) (tr : Bool) :
    Ev.connectCall ∈ (SQLConnection.init env server database u p tr defaultDriver).2 ∧
    (SQLConnection.init env server database u p tr defaultDriver).1.conn =
      ((tr || (!pyFalsy u && !pyFalsy p)) && env.connectOk) := by
  obtain ⟨co, ho, stmt⟩ := env
  cases tr <;> cases co <;>
    cases hu : pyFalsy u <;> cases hp : pyFalsy p <;>
    simp [SQLConnection.init, SQLConnection.connect, hu, hp]

/-- C5: When the statement execution itself raises after a live session
was ensured, `exec` rolls the transaction back and re-raises that error:
the outcome is the re-raised error, the trace ends with the rollback right
after the statement execution, and no commit happens anywhere in the
call. -/
theorem c5_exec_error_rollback_reraise (env : DriverEnv) (s : SQLConnection)
    (script : String) (params : Option (List String)) (m : String)
    (hstmt : env.stmt = .err m)
    (hrc : (SQLConnection.reconnect_if_needed env s).1 = true) :
    (SQLConnection.exec env s script params).1 = .raised m ∧
    (SQLConnection.exec env s script params).2.2 =
      (SQLConnection.reconnect_if_needed env s).2.2 ++
        [Ev.execStmt (pyTruthy params), Ev.rollback] ∧
    Ev.commit ∉ (SQLConnection.exec env s script params).2.2 := by
  have hne : ¬ (!(SQLConnection.reconnect_if_needed env s).1) = true := by simp [hrc]
  refine ⟨?_, ?_, ?_⟩
  · rw [SQLConnection.exec, if_neg hne, hstmt]
  · rw [SQLConnection.exec, if_neg hne, hstmt]
  · rw [SQLConnection.exec, if_neg hne, hstmt]
    intro hmem
    rcases List.mem_append.mp hmem with hmem | hmem
    · rcases ev_mem_reconnect env s _ hmem with h | ⟨b, h⟩ <;> simp at h
    · simp at hmem

/-- Witness for C5: a failing statement on a live connection. -/
theorem c5_exec_error_rollback_reraise_witness :
    (SQLConnection.exec ⟨true, true, .err "boom"⟩
      ⟨"h", "d", some "u", some "p", false, "drv", true, true⟩ "q" none).1 =
      .raised "boom" ∧
    (SQLConnection.exec ⟨true, true, .err "boom"⟩
      ⟨"h", "d", some "u", some "p", false, "drv", true, true⟩ "q" none).2.2 =
      (SQLConnection.reconnect_if_needed ⟨true, true, .err "boom"⟩
        ⟨"h", "d", some "u", some "p", false, "drv", true, true⟩).2.2 ++
        [Ev.execStmt (pyTruthy none), Ev.rollback] ∧
    Ev.commit ∉ (SQLConnection.exec ⟨true, true, .err "boom"⟩
      ⟨"h", "d", some "u", some "p", false, "drv", true, true⟩ "q" none).2.2 :=
  c5_exec_error_rollback_reraise ⟨true, true, .err "boom"⟩
    ⟨"h", "d", some "u", some "p", false, "drv", true, true⟩ "q" none "boom"
    rfl (by decide)

/-- C2: On an `exec` call whose liveness step succeeds: with a column
description present, the result is the rows mode — one dict per fetched
row, keys equal to the column names in column order (under the driver's
shape guarantees: distinct column names and each row as long as the
description) — and the transaction is committed before returning (the
trace ends with the commit); with no column description, the result is
the affected-row count, again committed before returning. -/
theorem c2_exec_dual_result (env : DriverEnv) (s : SQLConnection) (script : String)
    (params : Option (List String))
    (hrc : (SQLConnection.reconnect_if_needed env s).1 = true) :
    (∀ columns resultRows rowcount,
      env.stmt = .ok (some columns) resultRows rowcount →
      columns.Nodup →
      (∀ r ∈ resultRows, r.length = columns.length) →
      (SQLConnection.exec env s script params).1 =
        .rows (resultRows.map (rowToDict columns)) ∧
      (resultRows.map (rowToDict columns)).length = resultRows.length ∧
      (∀ d ∈ resultRows.map (rowToDict columns), dictKeys d = columns) ∧
      (SQLConnection.exec env s script params).2.2 =
        (SQLConnection.reconnect_if_needed env s).2.2 ++
          [Ev.execStmt (pyTruthy params), Ev.commit]) ∧
    (∀ resultRows rowcount,
      env.stmt = .ok none resultRows rowcount →
      (SQLConnection.exec env s script params).1 = .count rowcount ∧
      (SQLConnection.exec env s script params).2.2 =
        (SQLConnection.reconnect_if_needed env s).2.2 ++
          [Ev.execStmt (pyTruthy params), Ev.commit]) := by
  have hne : ¬ (!(SQLConnection.reconnect_if_needed env s).1) = true := by simp [hrc]
  constructor
  · intro columns resultRows rowcount hstmt hnd hlens
    have hguard : (resultRows.any fun r => decide (columns.length < r.length)) = false := by
      simp only [List.any_eq_false, decide_eq_true_eq]
      intro r hr
      rw [hlens r hr]
      omega
    refine ⟨?_, by simp, ?_, ?_⟩
    · rw [SQLConnection.exec, if_neg hne, hstmt]
      dsimp only
      rw [if_neg (by simp [hguard])]
    · intro d hd
      rcases List.mem_map.mp hd with ⟨r, hr, rfl⟩
      rw [rowToDict_zip columns r hnd (le_of_eq (hlens r hr))]
      simpa [dictKeys] using List.map_fst_zip columns r (le_of_eq (hlens r hr).symm)
    · rw [SQLConnection.exec, if_neg hne, hstmt]
      dsimp only
      rw [if_neg (by simp [hguard])]
  · intro resultRows rowcount hstmt
    refine ⟨?_, ?_⟩ <;> rw [SQLConnection.exec, if_neg hne, hstmt]

/-- Witness for C2: one two-column result row, and a no-description count. -/
theorem c2_exec_dual_result_witness :
    ((SQLConnection.exec ⟨true, true, .ok (some ["a", "b"]) [["1", "2"]] 1⟩
      ⟨"h", "d", some "u", some "p", false, "drv", true, true⟩ "q" none).1 =
      .rows [[("a", "1"), ("b", "2")]]) ∧
    ((SQLConnection.exec ⟨true, true, .ok none [] 3⟩
      ⟨"h", "d", some "u", some "p", false, "drv", true, true⟩ "q" none).1 =
      .count 3) := by
  constructor
  · have h := (c2_exec_dual_result ⟨true, true, .ok (some ["a", "b"]) [["1", "2"]] 1⟩
      ⟨"h", "d", some "u", some "p", false, "drv", true, true⟩ "q" none
      (by decide)).1 ["a", "b"] [["1", "2"]] 1 rfl (by decide) (by decide)
    rw [h.1]; decide
  · exact ((c2_exec_dual_result ⟨true, true, .ok none [] 3⟩
      ⟨"h", "d", some "u", some "p", false, "drv", true, true⟩ "q" none
      (by decide)).2 [] 3 rfl).1

/-- No close event can come from the constructor-plus-exec part of a
`fetch_data` trace. -/
lemma no_close_in_init_exec (env : DriverEnv) (host database : String)
    (u p : Option String) (q : String) (ps : Option (List String)) (e : Ev)
    (he : e = Ev.closeConn ∨ e = Ev.closeCursor) :
    e ∉ (SQLConnection.init env host database u p false defaultDriver).2 ++
      (SQLConnection.exec env (SQLConnection.init env host database u p false defaultDriver).1
        q ps).2.2 := by
  intro hmem
  rcases List.mem_append.mp hmem with h | h
  · rcases ev_mem_init env host database u p false e h with h1 | ⟨b, h1⟩ <;>
      rcases he with rfl | rfl <;> simp at h1
  · rcases ev_mem_exec env _ q ps e h with h1 | ⟨b, h1⟩ | ⟨b, h1⟩ | h1 | h1 <;>
      rcases he with rfl | rfl <;> simp at h1

/-- C1 counterexample: with a live driver and a failing statement,
`fetch_data` propagates the execution error without ever invoking
`close()`: no cursor-close and no connection-close event occurs before the
exception leaves `fetch_data`. -/
theorem c1_guaranteed_close_counterexample :
    (fetch_data ⟨true, true, .err "boom"⟩ ⟨"srv", "db", some "u", some "p"⟩
      ⟨2024, 1, 1⟩ ⟨2024, 1, 31⟩).1 = .raised "boom" ∧
    Ev.closeConn ∉ (fetch_data ⟨true, true, .err "boom"⟩
      ⟨"srv", "db", some "u", some "p"⟩ ⟨2024, 1, 1⟩ ⟨2024, 1, 31⟩).2 ∧
    Ev.closeCursor ∉ (fetch_data ⟨true, true, .err "boom"⟩
      ⟨"srv", "db", some "u", some "p"⟩ ⟨2024, 1, 1⟩ ⟨2024, 1, 31⟩).2 := by decide

/-- C1 amended: `fetch_data` invokes `close()` (cursor close then
connection close) before returning exactly on the normal-return paths;
when `exec` raises — `ConnectionError` or an execution error — the
exception propagates with no close invoked, teardown being left to the
destructor safety net outside `fetch_data`. -/
theorem c1_close_only_on_normal_return (env : DriverEnv) (cfg : DBConfig)
    (sd ed : Date) :
    ((∃ rs, (fetch_data env cfg sd ed).1 = .rows rs) ∨
     (∃ n, (fetch_data env cfg sd ed).1 = .count n) →
      Ev.closeConn ∈ (fetch_data env cfg sd ed).2 ∧
      Ev.closeCursor ∈ (fetch_data env cfg sd ed).2) ∧
    ((∃ m, (fetch_data env cfg sd ed).1 = .raised m) ∨
     (∃ m, (fetch_data env cfg sd ed).1 = .connError m) →
      Ev.closeConn ∉ (fetch_data env cfg sd ed).2 ∧
      Ev.closeCursor ∉ (fetch_data env cfg sd ed).2) := by
  unfold fetch_data
  rcases hE : SQLConnection.exec env
      (SQLConnection.init env cfg.host cfg.database cfg.user cfg.password false defaultDriver).1
      get_ops_between_dates (some [strftimeIso sd, strftimeIso ed]) with ⟨out, s2, t2⟩
  have hs2 : s2 = (SQLConnection.reconnect_if_needed env
      (SQLConnection.init env cfg.host cfg.database cfg.user cfg.password false defaultDriver).1).2.1 := by
    have h := exec_state env
      (SQLConnection.init env cfg.host cfg.database cfg.user cfg.password false defaultDriver).1
      get_ops_between_dates (some [strftimeIso sd, strftimeIso ed])
    rw [hE] at h
    exact h
  have hnc := fun e he => hE ▸ no_close_in_init_exec env cfg.host cfg.database
    cfg.user cfg.password get_ops_between_dates
    (some [strftimeIso sd, strftimeIso ed]) e he
  cases out with
  | rows rs =>
    have hout : (SQLConnection.exec env
        (SQLConnection.init env cfg.host cfg.database cfg.user cfg.password false defaultDriver).1
        get_ops_between_dates (some [strftimeIso sd, strftimeIso ed])).1 =
        ExecOutcome.rows rs := by rw [hE]
    have hrc := exec_normal_reconnect env _ _ _ (Or.inl ⟨rs, hout⟩)
    have hst := reconnect_true_state env _ hrc
    have hconn : s2.conn = true := by rw [hs2]; exact hst.1
    have hcur : s2.cursor = true := by rw [hs2]; exact hst.2
    refine ⟨fun _ => ?_, fun h => ?_⟩
    · constructor <;> simp [SQLConnection.close, hconn, hcur]
    · rcases h with ⟨m, hm⟩ | ⟨m, hm⟩ <;> simp at hm
  | count n =>
    have hout : (SQLConnection.exec env
        (SQLConnection.init env cfg.host cfg.database cfg.user cfg.password false defaultDriver).1
        get_ops_between_dates (some [strftimeIso sd, strftimeIso ed])).1 =
        ExecOutcome.count n := by rw [hE]
    have hrc := exec_normal_reconnect env _ _ _ (Or.inr ⟨n, hout⟩)
    have hst := reconnect_true_state env _ hrc
    have hconn : s2.conn = true := by rw [hs2]; exact hst.1
    have hcur : s2.cursor = true := by rw [hs2]; exact hst.2
    refine ⟨fun _ => ?_, fun h => ?_⟩
    · constructor <;> simp [SQLConnection.close, hconn, hcur]
    · rcases h with ⟨m, hm⟩ | ⟨m, hm⟩ <;> simp at hm
  | connError m =>
    refine ⟨fun h => ?_, fun _ => ?_⟩
    · rcases h with ⟨rs, hm⟩ | ⟨n, hm⟩ <;> simp at hm
    · exact ⟨hnc Ev.closeConn (Or.inl rfl), hnc Ev.closeCursor (Or.inr rfl)⟩
  | raised m =>
    refine ⟨fun h => ?_, fun _ => ?_⟩
    · rcases h with ⟨rs, hm⟩ | ⟨n, hm⟩ <;> simp at hm
    · exact ⟨hnc Ev.closeConn (Or.inl rfl), hnc Ev.closeCursor (Or.inr rfl)⟩

/-- Witness for C1 amended: on a successful fetch both close events occur. -/
theorem c1_close_only_on_normal_return_witness :
    Ev.closeConn ∈ (fetch_data ⟨true, true, .ok (some ["a"]) [["1"]] 1⟩
      ⟨"srv", "db", some "u", some "p"⟩ ⟨2024, 1, 1⟩ ⟨2024, 1, 31⟩).2 ∧
    Ev.closeCursor ∈ (fetch_data ⟨true, true, .ok (some ["a"]) [["1"]] 1⟩
      ⟨"srv", "db", some "u", some "p"⟩ ⟨2024, 1, 1⟩ ⟨2024, 1, 31⟩).2 :=
  (c1_close_only_on_normal_return ⟨true, true, .ok (some ["a"]) [["1"]] 1⟩
    ⟨"srv", "db", some "u", some "p"⟩ ⟨2024, 1, 1⟩ ⟨2024, 1, 31⟩).1
    (Or.inl ⟨[[("a", "1")]], by decide⟩)

/-- C3: When the date range resolves, the fetch returns non-empty rows,
the mail configuration is complete, and delivery reports failure, the run
still terminates with exit status 0 and the generated-but-not-delivered
message, and the rendered artifact is not written to a local file. -/
theorem c3_delivery_failure_still_success (a : Args) (env : DriverEnv) (cfg : Config)
    (sd ed : Date) (data : List (List (String × String)))
    (hdr : get_date_range a = .ok (sd, ed))
    (hfetch : (fetch_data env cfg.db sd ed).1 = .rows data)
    (hne : data ≠ [])
    (hmail : mailComplete cfg.mail = true) :
    main_run a env cfg false =
      { exitCode := 0, message := "Report generated but email sending failed",
        savedFile := none } := by
  have hie : data.isEmpty = false := by
    cases data with
    | nil => exact absurd rfl hne
    | cons x xs => rfl
  unfold main_run
  rw [hdr]
  dsimp only
  rw [hfetch]
  dsimp only
  simp [hie, hmail]

/-- Witness for C3: concrete failing delivery on one fetched row. -/
theorem c3_delivery_failure_still_success_witness :
    main_run (Args.between "2024-01-01" "2024-01-31")
      ⟨true, true, .ok (some ["id"]) [["1"]] 1⟩
      ⟨⟨"srv", "db", some "u", some "p"⟩,
       some ⟨some "url", some "key", some "fe", some "fn", some "subj", some ["r"]⟩⟩
      false =
      { exitCode := 0, message := "Report generated but email sending failed",
        savedFile := none } :=
  c3_delivery_failure_still_success (Args.between "2024-01-01" "2024-01-31")
    ⟨true, true, .ok (some ["id"]) [["1"]] 1⟩
    ⟨⟨"srv", "db", some "u", some "p"⟩,
     some ⟨some "url", some "key", some "fe", some "fn", some "subj", some ["r"]⟩⟩
    ⟨2024, 1, 1⟩ ⟨2024, 1, 31⟩ [[("id", "1")]]
    (by rfl) (by decide) (by decide) (by decide)
